import Mathlib

/-!
Verification of the lead-qualification chatbot backend (src/index.js).

The decision logic of the repository is embedded as pure Lean functions:
the phone normalizer, the lead scorer, the scheduling-intent classifier,
the per-field answer classifier, and the conversation state machine
getNextStep.  JavaScript strings become Lean String, nullable strings
become Option String, and the database writes performed by getNextStep
are modelled by returning the persisted lead snapshot alongside the reply.
-/

set_option autoImplicit false

namespace RealEstate

/-! ## String helpers mirroring JavaScript semantics -/

/-- Boolean test that a list starts with the given pattern
(mirrors the start of a JavaScript substring scan). -/
def startsWithList : List Char → List Char → Bool
  | [], _ => true
  | _ :: _, [] => false
  | p :: ps, c :: cs => p == c && startsWithList ps cs

/-- Boolean test that the pattern occurs contiguously somewhere in the list. -/
def hasSubList (pat : List Char) : List Char → Bool
  | [] => startsWithList pat []
  | c :: cs => startsWithList pat (c :: cs) || hasSubList pat cs

/-- JavaScript String.prototype.includes: does s contain pat as a substring. -/
def jsIncludes (s pat : String) : Bool :=
  hasSubList pat.data s.data

/-- JavaScript String.prototype.toLowerCase, character by character. -/
def jsToLower (s : String) : String :=
  ⟨s.data.map Char.toLower⟩

/-- JavaScript String.prototype.trim: strip leading and trailing whitespace. -/
def jsTrim (s : String) : String :=
  ⟨((s.data.dropWhile Char.isWhitespace).reverse.dropWhile Char.isWhitespace).reverse⟩

/-! ## Data model: the Lead record (src/index.js getCurrentLeadState default) -/

/-- A lead record as persisted in the leads table.  Nullable columns are
Option String; the seven qualification fields hold free text, the sentinel
value for declined answers, or none when unset. -/
structure Lead where
  phone : String
  current_question_index : Nat
  qualification_complete : Bool
  asked_for_meeting : Bool
  meeting_scheduled : Bool
  wants_meeting : Option Bool
  meeting_notes : Option String
  lead_score : Option String
  location : Option String
  home_type : Option String
  bedrooms : Option String
  budget : Option String
  timeline : Option String
  preapproval : Option String
  motivation : Option String
deriving Repr, DecidableEq

/-- The default state returned for a phone not yet on record
(src/index.js getCurrentLeadState, lines 151-166). -/
def initialLead (phone : String) : Lead :=
  { phone := phone
    current_question_index := 0
    qualification_complete := false
    asked_for_meeting := false
    meeting_scheduled := false
    wants_meeting := none
    meeting_notes := none
    lead_score := none
    location := none
    home_type := none
    bedrooms := none
    budget := none
    timeline := none
    preapproval := none
    motivation := none }

/-! ## Phone normalizer (src/index.js normalizePhone, lines 70-79) -/

/-- normalizePhone: empty string for null or empty input, otherwise the
digit-only substring of the input (both branches of the source return the
same digit string). -/
def normalizePhone (phone : Option String) : String :=
  match phone with
  | none => ""
  | some s => if s = "" then "" else ⟨s.data.filter Char.isDigit⟩

/-! ## Qualification script (src/index.js QUALIFICATION_QUESTIONS, lines 47-55) -/

/-- The fixed ordered interview script: (field, prompt) pairs. -/
def QUALIFICATION_QUESTIONS : List (String × String) :=
  [ ("location", "What area or city are you looking in?")
  , ("home_type", "What type of home are you looking for? (house, condo, apartment, etc.)")
  , ("bedrooms", "How many bedrooms do you need?")
  , ("budget", "What\x27s your budget or price range?")
  , ("timeline", "When are you looking to move?")
  , ("preapproval", "Are you pre-approved for a mortgage or planning to pay cash?")
  , ("motivation", "What\x27s motivating your move? (new job, bigger space, investment, etc.)")
  ]

/-! ## Lead scorer (src/index.js calculateLeadScore, lines 192-222) -/

/-- The field list scanned by the scorer, in source order. -/
def scoreFields : List String :=
  ["location", "budget", "timeline", "home_type", "bedrooms", "preapproval", "motivation"]

/-- Read a qualification field of a lead by its column name. -/
def leadField (lead : Lead) (field : String) : Option String :=
  if field = "location" then lead.location
  else if field = "home_type" then lead.home_type
  else if field = "bedrooms" then lead.bedrooms
  else if field = "budget" then lead.budget
  else if field = "timeline" then lead.timeline
  else if field = "preapproval" then lead.preapproval
  else if field = "motivation" then lead.motivation
  else none

/-- The filter of the scorer: the value is truthy, not the sentinel, and
not whitespace-only (value and value !== unknown and value.trim() !== empty). -/
def fieldFilled : Option String → Bool
  | none => false
  | some v => v != "" && v != "unknown" && jsTrim v != ""

/-- filledCount: how many of the seven fields pass the filter. -/
def filledCount (lead : Lead) : Nat :=
  (scoreFields.filter (fun f => fieldFilled (leadField lead f))).length

/-- isUrgent: the lower-cased timeline (empty when null) contains one of the
urgency keywords. -/
def leadIsUrgent (lead : Lead) : Bool :=
  let timeline := jsToLower (lead.timeline.getD "")
  jsIncludes timeline "asap" ||
  jsIncludes timeline "soon" ||
  jsIncludes timeline "immediately" ||
  jsIncludes timeline "next month" ||
  jsIncludes timeline "30 day" ||
  jsIncludes timeline "2 week" ||
  jsIncludes timeline "urgent"

/-- hasStrongBudget: budget is truthy and contains neither the sentinel word
nor the phrase not sure (no lower-casing in the source). -/
def leadHasStrongBudget (lead : Lead) : Bool :=
  match lead.budget with
  | none => false
  | some b => b != "" && !(jsIncludes b "unknown") && !(jsIncludes b "not sure")

/-- calculateLeadScore: the top-down decision table of the source. -/
def calculateLeadScore (lead : Lead) : String :=
  if filledCount lead >= 5 && leadIsUrgent lead && leadHasStrongBudget lead then "hot"
  else if filledCount lead >= 4 then "warm"
  else "cold"

/-! ## Scheduling-intent classifier (src/index.js isPositiveResponse, 227-239) -/

/-- The affirmative lexicon of the source, in source order. -/
def positiveWords : List String :=
  [ "yes", "yeah", "yep", "sure", "ok", "okay"
  , "sounds good", "perfect", "great", "awesome"
  , "bet", "definitely", "absolutely", "lets do it", "let\x27s do it"
  , "schedule", "call me", "call", "meeting", "please", "ready" ]

/-- isPositiveResponse: false on null or empty input, otherwise any lexicon
word occurring as a substring of the lower-cased trimmed text suffices. -/
def isPositiveResponse (message : Option String) : Bool :=
  match message with
  | none => false
  | some m =>
    if m = "" then false
    else
      let text := jsTrim (jsToLower m)
      positiveWords.any (fun word => jsIncludes text word)

/-! ## Per-field answer writer (src/index.js updateLeadField, lines 244-264) -/

/-- Write a qualification field of a lead by its column name; unknown column
names leave the lead unchanged. -/
def setLeadField (lead : Lead) (field value : String) : Lead :=
  if field = "location" then { lead with location := some value }
  else if field = "home_type" then { lead with home_type := some value }
  else if field = "bedrooms" then { lead with bedrooms := some value }
  else if field = "budget" then { lead with budget := some value }
  else if field = "timeline" then { lead with timeline := some value }
  else if field = "preapproval" then { lead with preapproval := some value }
  else if field = "motivation" then { lead with motivation := some value }
  else lead

/-- The I-do-not-know lexicon checked by updateLeadField, in source order. -/
def unknownPhrases : List String :=
  ["not sure", "don\x27t know", "unknown", "idk", "not certain"]

/-- updateLeadField: past the end of the script the lead is returned
unchanged; otherwise the trimmed response is written into the script field at
the current index, replaced by the sentinel when its lower-casing contains an
I-do-not-know phrase. -/
def updateLeadField (lead : Lead) (currentQuestionIndex : Nat) (userResponse : String) : Lead :=
  if currentQuestionIndex >= QUALIFICATION_QUESTIONS.length then lead
  else if unknownPhrases.any (fun p => jsIncludes (jsToLower (jsTrim userResponse)) p) then
    setLeadField lead (QUALIFICATION_QUESTIONS.getD currentQuestionIndex ("", "")).1 "unknown"
  else
    setLeadField lead (QUALIFICATION_QUESTIONS.getD currentQuestionIndex ("", "")).1
      (jsTrim userResponse)

/-! ## Conversation state machine (src/index.js getNextStep, lines 269-356)

The source function reads the lead snapshot, computes the mutation, persists
it with merge semantics, and returns a typed reply.  Here the persisted
snapshot after all saves of the call is returned in newLead; a branch that
saves nothing returns the input lead unchanged. -/

/-- The outcome of one state-machine step: reply type, reply text, and the
lead snapshot as persisted at the end of the call. -/
structure StepResult where
  type : String
  message : String
  newLead : Lead
deriving Repr, DecidableEq

/-- The interview-turn mutation of getNextStep: write the answer into the
script field at the current index, advance the index, and when the script is
finished set the completion flag and compute the score over the updated
field set (the updatedLead chain of the source, lines 290-300). -/
def interviewLead (lead : Lead) (currentIndex : Nat) (userResponse : String) : Lead :=
  if currentIndex + 1 = QUALIFICATION_QUESTIONS.length then
    { updateLeadField lead currentIndex userResponse with
        current_question_index := currentIndex + 1
        qualification_complete := true
        lead_score := some (calculateLeadScore
          { updateLeadField lead currentIndex userResponse with
              current_question_index := currentIndex + 1 }) }
  else
    { updateLeadField lead currentIndex userResponse with
        current_question_index := currentIndex + 1 }

/-- The scheduling offer sent after the last interview turn: score emoji,
fixed copy, and the computed tier word (source lines 313-319). -/
def schedulingMessage (score : String) : String :=
  (if score = "hot" then "🔥" else if score = "warm" then "☀️" else "❄️")
    ++ " Thanks for the information! Based on what you\x27ve shared, you\x27re a "
    ++ score
    ++ " lead. Would you like to schedule a meeting with one of our agents?"

/-- getNextStep: terminal short-circuit, interview branch, scheduling-response
branch, fallback, in the priority order of the source. -/
def getNextStep (lead : Lead) (userResponse : String) : StepResult :=
  if lead.meeting_scheduled then
    { type := "already_handled"
      message := "Thanks for your message! Our team will be in touch shortly to confirm the meeting details."
      newLead := lead }
  else if lead.current_question_index < QUALIFICATION_QUESTIONS.length then
    if lead.current_question_index + 1 < QUALIFICATION_QUESTIONS.length then
      { type := "question"
        message := (QUALIFICATION_QUESTIONS.getD (lead.current_question_index + 1) ("", "")).2
        newLead := interviewLead lead lead.current_question_index userResponse }
    else
      { type := "scheduling"
        message := schedulingMessage
          ((interviewLead lead lead.current_question_index userResponse).lead_score.getD "")
        newLead := { interviewLead lead lead.current_question_index userResponse with
            asked_for_meeting := true } }
  else if lead.asked_for_meeting && !lead.meeting_scheduled then
    if isPositiveResponse (some userResponse) then
      { type := "meeting_confirmed"
        message := "🎉 Great! An agent will reach out to you within the next hour to schedule the meeting. Thank you!"
        newLead := { lead with
            meeting_scheduled := true
            wants_meeting := some true
            meeting_notes := some userResponse } }
    else
      { type := "meeting_declined"
        message := "Thank you for your interest! We will keep your information on file and reach out if we find properties that match your criteria."
        newLead := { lead with
            meeting_scheduled := true
            wants_meeting := some false } }
  else
    { type := "fallback"
      message := "Thanks for your message! Our team will review your information and get back to you shortly."
      newLead := lead }

/-- A whole conversation: fold the state machine over the inbound messages,
persisting each step before the next message arrives (the webhook handler
reloads the persisted snapshot on every call). -/
def runConversation (lead : Lead) : List String → Lead
  | [] => lead
  | m :: ms => runConversation (getNextStep lead m).newLead ms

/-- The reachability invariant of the conversation state machine: the
question index stays within the script, the completion flag tracks reaching
the end of the script, and a booked meeting implies a finished interview. -/
def LeadInv (l : Lead) : Prop :=
  l.current_question_index ≤ QUALIFICATION_QUESTIONS.length
  ∧ (l.qualification_complete = true ↔
      l.current_question_index = QUALIFICATION_QUESTIONS.length)
  ∧ (l.meeting_scheduled = true →
      l.current_question_index = QUALIFICATION_QUESTIONS.length)

/-! ## Concrete leads used in scenarios and witnesses -/

/-- Scenario E input of the spec: six answered fields, budget declined. -/
def scenarioELead : Lead :=
  { initialLead "15551234567" with
      location := some "Dallas"
      budget := some "unknown"
      timeline := some "asap"
      home_type := some "condo"
      bedrooms := some "2"
      preapproval := some "cash"
      motivation := some "job" }

/-- A fully answered lead whose timeline carries no urgency keyword. -/
def fullNotUrgentLead : Lead :=
  { initialLead "15551234567" with
      location := some "Dallas"
      budget := some "500k"
      timeline := some "next year"
      home_type := some "condo"
      bedrooms := some "2"
      preapproval := some "cash"
      motivation := some "job" }

/-- Scenario B input of the spec: a lead at the last question with the first
six fields answered. -/
def scenarioBLead : Lead :=
  { initialLead "15551234567" with
      current_question_index := 6
      location := some "Dallas"
      home_type := some "condo"
      bedrooms := some "2"
      budget := some "500k"
      timeline := some "asap"
      preapproval := some "cash" }

/-- A lead that has finished the interview and been offered a meeting. -/
def schedulingLead : Lead :=
  { initialLead "15551234567" with
      current_question_index := 7
      qualification_complete := true
      asked_for_meeting := true
      lead_score := some "hot"
      location := some "Dallas"
      home_type := some "condo"
      bedrooms := some "2"
      budget := some "500k"
      timeline := some "asap"
      preapproval := some "cash"
      motivation := some "job" }

/-- A lead whose meeting is already booked. -/
def terminalLead : Lead :=
  { initialLead "15551234567" with
      current_question_index := 7
      qualification_complete := true
      asked_for_meeting := true
      meeting_scheduled := true }

/-! ## Theorems -/

/-! ### Frame lemmas: the answer writer only touches qualification fields -/

@[simp]
theorem setLeadField_phone (l : Lead) (f v : String) :
    (setLeadField l f v).phone = l.phone := by
  unfold setLeadField; split_ifs <;> rfl

@[simp]
theorem setLeadField_current_question_index (l : Lead) (f v : String) :
    (setLeadField l f v).current_question_index = l.current_question_index := by
  unfold setLeadField; split_ifs <;> rfl

@[simp]
theorem setLeadField_qualification_complete (l : Lead) (f v : String) :
    (setLeadField l f v).qualification_complete = l.qualification_complete := by
  unfold setLeadField; split_ifs <;> rfl

@[simp]
theorem setLeadField_asked_for_meeting (l : Lead) (f v : String) :
    (setLeadField l f v).asked_for_meeting = l.asked_for_meeting := by
  unfold setLeadField; split_ifs <;> rfl

@[simp]
theorem setLeadField_meeting_scheduled (l : Lead) (f v : String) :
    (setLeadField l f v).meeting_scheduled = l.meeting_scheduled := by
  unfold setLeadField; split_ifs <;> rfl

@[simp]
theorem updateLeadField_phone (l : Lead) (i : Nat) (r : String) :
    (updateLeadField l i r).phone = l.phone := by
  unfold updateLeadField; split_ifs <;> simp

@[simp]
theorem updateLeadField_current_question_index (l : Lead) (i : Nat) (r : String) :
    (updateLeadField l i r).current_question_index = l.current_question_index := by
  unfold updateLeadField; split_ifs <;> simp

@[simp]
theorem updateLeadField_qualification_complete (l : Lead) (i : Nat) (r : String) :
    (updateLeadField l i r).qualification_complete = l.qualification_complete := by
  unfold updateLeadField; split_ifs <;> simp

@[simp]
theorem updateLeadField_asked_for_meeting (l : Lead) (i : Nat) (r : String) :
    (updateLeadField l i r).asked_for_meeting = l.asked_for_meeting := by
  unfold updateLeadField; split_ifs <;> simp

@[simp]
theorem updateLeadField_meeting_scheduled (l : Lead) (i : Nat) (r : String) :
    (updateLeadField l i r).meeting_scheduled = l.meeting_scheduled := by
  unfold updateLeadField; split_ifs <;> simp

@[simp]
theorem interviewLead_current_question_index (l : Lead) (i : Nat) (r : String) :
    (interviewLead l i r).current_question_index = i + 1 := by
  unfold interviewLead; split_ifs <;> rfl

@[simp]
theorem interviewLead_qualification_complete (l : Lead) (i : Nat) (r : String) :
    (interviewLead l i r).qualification_complete =
      (if i + 1 = QUALIFICATION_QUESTIONS.length then true else l.qualification_complete) := by
  unfold interviewLead; split_ifs <;> simp

@[simp]
theorem interviewLead_asked_for_meeting (l : Lead) (i : Nat) (r : String) :
    (interviewLead l i r).asked_for_meeting = l.asked_for_meeting := by
  unfold interviewLead; split_ifs <;> simp

@[simp]
theorem interviewLead_meeting_scheduled (l : Lead) (i : Nat) (r : String) :
    (interviewLead l i r).meeting_scheduled = l.meeting_scheduled := by
  unfold interviewLead; split_ifs <;> simp

/-! ### Invariant preservation through one state-machine step -/

theorem getNextStep_step (l : Lead) (m : String) (h : LeadInv l) :
    LeadInv (getNextStep l m).newLead
    ∧ (getNextStep l m).newLead.current_question_index
        = min (l.current_question_index + 1) QUALIFICATION_QUESTIONS.length := by
  obtain ⟨h1, h2, h3⟩ := h
  unfold getNextStep LeadInv
  split_ifs with hms hlt hnext hresp hpos
  · -- terminal branch: no mutation
    have hidx := h3 hms
    exact ⟨⟨h1, h2, h3⟩, by dsimp only; omega⟩
  · -- interview branch, further questions remain
    simp only [interviewLead_current_question_index, interviewLead_qualification_complete,
      interviewLead_meeting_scheduled]
    rw [if_neg (by omega)]
    refine ⟨⟨by omega, ?_, ?_⟩, by omega⟩
    · rw [h2]; constructor <;> omega
    · intro hx; exact absurd hx hms
  · -- interview branch, last question: completion and scheduling offer
    simp only [interviewLead_current_question_index, interviewLead_qualification_complete,
      interviewLead_meeting_scheduled]
    rw [if_pos (by omega)]
    refine ⟨⟨by omega, ⟨fun _ => by omega, fun _ => rfl⟩, ?_⟩, by omega⟩
    intro hx; exact absurd hx hms
  · -- scheduling response, affirmative
    have hidx : l.current_question_index = QUALIFICATION_QUESTIONS.length := by omega
    exact ⟨⟨h1, h2, fun _ => hidx⟩, by dsimp only; omega⟩
  · -- scheduling response, negative
    have hidx : l.current_question_index = QUALIFICATION_QUESTIONS.length := by omega
    exact ⟨⟨h1, h2, fun _ => hidx⟩, by dsimp only; omega⟩
  · -- fallback: no mutation
    have hidx : l.current_question_index = QUALIFICATION_QUESTIONS.length := by omega
    exact ⟨⟨h1, h2, h3⟩, by dsimp only; omega⟩


/-- C9: normalizePhone is idempotent, its output is the digit-only
substring of the input, and it returns the empty string on null or empty
input. -/
theorem normalizePhone_idempotent :
    (∀ p : Option String, normalizePhone (some (normalizePhone p)) = normalizePhone p)
    ∧ (∀ s : String, (normalizePhone (some s)).data = s.data.filter Char.isDigit)
    ∧ normalizePhone none = "" ∧ normalizePhone (some "") = "" := by
  have hdata : ∀ s : String, (normalizePhone (some s)).data = s.data.filter Char.isDigit := by
    intro s
    unfold normalizePhone
    by_cases h : s = ""
    · subst h; rfl
    · simp [h]
  refine ⟨?_, hdata, rfl, rfl⟩
  intro p
  match p with
  | none => rfl
  | some s =>
    apply String.ext
    rw [hdata, hdata, List.filter_filter]
    simp

/-- C6: isPositiveResponse is false on null and empty input, and false on
the concrete negative message, no affirmative-lexicon word occurring in it. -/
theorem isPositiveResponse_negative_cases :
    isPositiveResponse none = false
    ∧ isPositiveResponse (some "") = false
    ∧ isPositiveResponse (some "no thanks, not now") = false
    ∧ positiveWords.all (fun w => !(jsIncludes "no thanks, not now" w)) = true := by
  refine ⟨rfl, rfl, ?_, ?_⟩ <;> decide

/-- C1: once the meeting is scheduled, any inbound message yields the fixed
acknowledgement and the persisted state is identical to the input state. -/
theorem getNextStep_terminal (lead : Lead) (msg : String)
    (h : lead.meeting_scheduled = true) :
    getNextStep lead msg =
      { type := "already_handled"
        message := "Thanks for your message! Our team will be in touch shortly to confirm the meeting details."
        newLead := lead } := by
  unfold getNextStep
  simp [h]

/-- Witness for C1 at a concrete booked lead. -/
theorem getNextStep_terminal_witness :
    getNextStep terminalLead "hello again" =
      { type := "already_handled"
        message := "Thanks for your message! Our team will be in touch shortly to confirm the meeting details."
        newLead := terminalLead } :=
  getNextStep_terminal terminalLead "hello again" rfl

/-- C2: calculateLeadScore implements the top-down decision table; the
scenario E input scores warm with six filled fields, urgency, and no strong
budget; and a high fill count without urgency still scores warm, not hot. -/
theorem calculateLeadScore_decision_table :
    (∀ lead : Lead,
        calculateLeadScore lead =
          if 5 ≤ filledCount lead ∧ leadIsUrgent lead = true ∧ leadHasStrongBudget lead = true
          then "hot"
          else if 4 ≤ filledCount lead then "warm" else "cold")
    ∧ (filledCount scenarioELead = 6 ∧ leadIsUrgent scenarioELead = true
        ∧ leadHasStrongBudget scenarioELead = false ∧ calculateLeadScore scenarioELead = "warm")
    ∧ (∀ lead : Lead, 5 ≤ filledCount lead → leadIsUrgent lead = false →
        calculateLeadScore lead = "warm") := by
  refine ⟨?_, by exact ⟨rfl, rfl, rfl, rfl⟩, ?_⟩
  · intro lead
    unfold calculateLeadScore
    rcases h2 : leadIsUrgent lead <;> rcases h3 : leadHasStrongBudget lead <;>
      by_cases h1 : 5 ≤ filledCount lead <;>
        simp [h1, h2, h3]
  · intro lead h5 hu
    have h4 : 4 ≤ filledCount lead := by omega
    unfold calculateLeadScore
    simp [hu, h4]

/-- Witness for C2 at a fully answered but non-urgent lead. -/
theorem calculateLeadScore_decision_table_witness :
    5 ≤ filledCount fullNotUrgentLead ∧ leadIsUrgent fullNotUrgentLead = false
    ∧ calculateLeadScore fullNotUrgentLead = "warm" :=
  ⟨by decide, by decide,
    calculateLeadScore_decision_table.2.2 fullNotUrgentLead (by decide) (by decide)⟩

/-- Invariant and index count through a whole conversation. -/
theorem runConversation_index (msgs : List String) (l : Lead) (h : LeadInv l) :
    LeadInv (runConversation l msgs)
    ∧ (runConversation l msgs).current_question_index
        = min (l.current_question_index + msgs.length) QUALIFICATION_QUESTIONS.length := by
  induction msgs generalizing l with
  | nil =>
      refine ⟨h, ?_⟩
      have h1 := h.1
      simp only [runConversation, List.length_nil]
      omega
  | cons m ms ih =>
      obtain ⟨hinv, hidx⟩ := getNextStep_step l m h
      obtain ⟨hinv2, hidx2⟩ := ih ((getNextStep l m).newLead) hinv
      refine ⟨hinv2, ?_⟩
      have hlen := h.1
      simp only [runConversation, List.length_cons]
      rw [hidx2, hidx]
      omega

/-- C3: from a fresh lead, after N inbound messages the question index equals
min(N, script length), never exceeds the script length, and the completion
flag holds exactly when the index equals the script length. -/
theorem reachable_index_invariant (phone : String) (msgs : List String) :
    (runConversation (initialLead phone) msgs).current_question_index
        = min msgs.length QUALIFICATION_QUESTIONS.length
    ∧ (runConversation (initialLead phone) msgs).current_question_index
        ≤ QUALIFICATION_QUESTIONS.length
    ∧ ((runConversation (initialLead phone) msgs).qualification_complete = true
        ↔ (runConversation (initialLead phone) msgs).current_question_index
            = QUALIFICATION_QUESTIONS.length) := by
  have h0 : LeadInv (initialLead phone) := by
    refine ⟨by simp [initialLead], ?_, ?_⟩
    · simp [initialLead, QUALIFICATION_QUESTIONS]
    · intro hx; simp [initialLead] at hx
  obtain ⟨⟨a, b, c⟩, hidx⟩ := runConversation_index msgs (initialLead phone) h0
  refine ⟨?_, a, b⟩
  simpa [initialLead] using hidx

/-- Witness for C3 at a concrete conversation of nine messages. -/
theorem reachable_index_invariant_witness :
    (runConversation (initialLead "15551234567")
        ["Phoenix", "condo", "2", "500k", "asap", "cash", "job", "yes", "hello"]).current_question_index
      = min 9 QUALIFICATION_QUESTIONS.length :=
  (reachable_index_invariant "15551234567"
    ["Phoenix", "condo", "2", "500k", "asap", "cash", "job", "yes", "hello"]).1

/-! ### The answer writer on in-script indices -/

/-- Helper: when an I-do-not-know phrase occurs in the trimmed lower-cased
response, the script field at the current index receives the sentinel. -/
theorem updateLeadField_unknown_case (l : Lead) (i : Nat) (r : String)
    (hi : i < QUALIFICATION_QUESTIONS.length)
    (hm : unknownPhrases.any (fun p => jsIncludes (jsToLower (jsTrim r)) p) = true) :
    leadField (updateLeadField l i r) (QUALIFICATION_QUESTIONS.getD i ("", "")).1
      = some "unknown" := by
  unfold updateLeadField
  rw [if_neg (by omega), if_pos hm]
  have hi7 : i < 7 := by
    simpa [QUALIFICATION_QUESTIONS] using hi
  interval_cases i <;> simp [QUALIFICATION_QUESTIONS, setLeadField, leadField]

/-- Helper: otherwise the script field at the current index receives the
literal trimmed response. -/
theorem updateLeadField_literal_case (l : Lead) (i : Nat) (r : String)
    (hi : i < QUALIFICATION_QUESTIONS.length)
    (hm : unknownPhrases.any (fun p => jsIncludes (jsToLower (jsTrim r)) p) = false) :
    leadField (updateLeadField l i r) (QUALIFICATION_QUESTIONS.getD i ("", "")).1
      = some (jsTrim r) := by
  unfold updateLeadField
  rw [if_neg (by omega), if_neg (by simp [hm])]
  have hi7 : i < 7 := by
    simpa [QUALIFICATION_QUESTIONS] using hi
  interval_cases i <;> simp [QUALIFICATION_QUESTIONS, setLeadField, leadField]

/-- C7: below the script length, updateLeadField writes the sentinel into
the script field at the current index exactly when the trimmed response
case-insensitively contains an I-do-not-know phrase, and the literal trimmed
text otherwise. -/
theorem updateLeadField_sentinel (lead : Lead) (i : Nat) (resp : String)
    (hi : i < QUALIFICATION_QUESTIONS.length) :
    (unknownPhrases.any (fun p => jsIncludes (jsToLower (jsTrim resp)) p) = true →
      leadField (updateLeadField lead i resp) (QUALIFICATION_QUESTIONS.getD i ("", "")).1
        = some "unknown")
    ∧ (unknownPhrases.any (fun p => jsIncludes (jsToLower (jsTrim resp)) p) = false →
      leadField (updateLeadField lead i resp) (QUALIFICATION_QUESTIONS.getD i ("", "")).1
        = some (jsTrim resp)) :=
  ⟨fun hm => updateLeadField_unknown_case lead i resp hi hm,
   fun hm => updateLeadField_literal_case lead i resp hi hm⟩

/-- Witness for C7 at the first script slot and a declining answer. -/
theorem updateLeadField_sentinel_witness :
    leadField (updateLeadField (initialLead "15551234567") 0 "not sure")
        (QUALIFICATION_QUESTIONS.getD 0 ("", "")).1 = some "unknown" :=
  (updateLeadField_sentinel (initialLead "15551234567") 0 "not sure" (by decide)).1 (by decide)

/-! ### The scheduling-response branch of the state machine -/

/-- Helper: the affirmative scheduling transition. -/
theorem getNextStep_sched_pos (lead : Lead) (msg : String)
    (ham : lead.asked_for_meeting = true) (hms : lead.meeting_scheduled = false)
    (hidx : QUALIFICATION_QUESTIONS.length ≤ lead.current_question_index)
    (hpos : isPositiveResponse (some msg) = true) :
    getNextStep lead msg =
      { type := "meeting_confirmed"
        message := "🎉 Great! An agent will reach out to you within the next hour to schedule the meeting. Thank you!"
        newLead := { lead with
            meeting_scheduled := true
            wants_meeting := some true
            meeting_notes := some msg } } := by
  unfold getNextStep
  rw [if_neg (by simp [hms]), if_neg (by omega), if_pos (by simp [ham, hms]), if_pos hpos]

/-- Helper: the negative scheduling transition. -/
theorem getNextStep_sched_neg (lead : Lead) (msg : String)
    (ham : lead.asked_for_meeting = true) (hms : lead.meeting_scheduled = false)
    (hidx : QUALIFICATION_QUESTIONS.length ≤ lead.current_question_index)
    (hneg : isPositiveResponse (some msg) = false) :
    getNextStep lead msg =
      { type := "meeting_declined"
        message := "Thank you for your interest! We will keep your information on file and reach out if we find properties that match your criteria."
        newLead := { lead with
            meeting_scheduled := true
            wants_meeting := some false } } := by
  unfold getNextStep
  rw [if_neg (by simp [hms]), if_neg (by omega), if_pos (by simp [ham, hms]),
    if_neg (by simp [hneg])]

/-- C5: once the meeting offer is pending and the interview is over, an
affirmative message books the meeting and stores the raw text as notes, a
non-affirmative message books it as declined without touching the notes, and
the concrete affirmative of scenario C is classified affirmative. -/
theorem getNextStep_scheduling_response (lead : Lead) (msg : String)
    (ham : lead.asked_for_meeting = true) (hms : lead.meeting_scheduled = false)
    (hidx : QUALIFICATION_QUESTIONS.length ≤ lead.current_question_index) :
    (isPositiveResponse (some msg) = true →
      getNextStep lead msg =
        { type := "meeting_confirmed"
          message := "🎉 Great! An agent will reach out to you within the next hour to schedule the meeting. Thank you!"
          newLead := { lead with
              meeting_scheduled := true
              wants_meeting := some true
              meeting_notes := some msg } })
    ∧ (isPositiveResponse (some msg) = false →
      getNextStep lead msg =
        { type := "meeting_declined"
          message := "Thank you for your interest! We will keep your information on file and reach out if we find properties that match your criteria."
          newLead := { lead with
              meeting_scheduled := true
              wants_meeting := some false } })
    ∧ isPositiveResponse (some "yeah let\x27s do it") = true :=
  ⟨fun hpos => getNextStep_sched_pos lead msg ham hms hidx hpos,
   fun hneg => getNextStep_sched_neg lead msg ham hms hidx hneg,
   by decide⟩

/-- Witness for C5 at a concrete pending-offer lead and the scenario C
message. -/
theorem getNextStep_scheduling_response_witness :
    getNextStep schedulingLead "yeah let\x27s do it" =
      { type := "meeting_confirmed"
        message := "🎉 Great! An agent will reach out to you within the next hour to schedule the meeting. Thank you!"
        newLead := { schedulingLead with
            meeting_scheduled := true
            wants_meeting := some true
            meeting_notes := some "yeah let\x27s do it" } } :=
  (getNextStep_scheduling_response schedulingLead "yeah let\x27s do it" rfl rfl
    (by decide)).1 (by decide)

/-! ### The interview branch on concrete turns -/

/-- C8: a fresh lead answering the first question has the answer written
into location, the index advanced from 0 to 1, and receives the home-type
prompt. -/
theorem getNextStep_first_message (lead : Lead)
    (h0 : lead.current_question_index = 0)
    (hqc : lead.qualification_complete = false)
    (ham : lead.asked_for_meeting = false)
    (hms : lead.meeting_scheduled = false) :
    getNextStep lead "Phoenix" =
      { type := "question"
        message := "What type of home are you looking for? (house, condo, apartment, etc.)"
        newLead := { lead with
            location := some "Phoenix"
            current_question_index := 1 } } := by
  unfold getNextStep
  rw [h0]
  rw [if_neg (by simp [hms]), if_pos (by decide), if_pos (by decide)]
  unfold interviewLead updateLeadField
  rw [if_neg (by decide), if_neg (by decide), if_neg (by decide)]
  have ht : jsTrim "Phoenix" = "Phoenix" := by decide
  simp [QUALIFICATION_QUESTIONS, setLeadField, ht]

/-- Witness for C8 at the default fresh lead. -/
theorem getNextStep_first_message_witness :
    getNextStep (initialLead "15551234567") "Phoenix" =
      { type := "question"
        message := "What type of home are you looking for? (house, condo, apartment, etc.)"
        newLead := { initialLead "15551234567" with
            location := some "Phoenix"
            current_question_index := 1 } } :=
  getNextStep_first_message (initialLead "15551234567") rfl rfl rfl rfl

/-- Helper: the scorer only ever returns one of the three tier words. -/
theorem calculateLeadScore_cases (l : Lead) :
    calculateLeadScore l = "hot" ∨ calculateLeadScore l = "warm"
      ∨ calculateLeadScore l = "cold" := by
  unfold calculateLeadScore
  split_ifs <;> simp

/-- Helper: the scheduling offer contains the tier word it is built from. -/
theorem schedulingMessage_contains (s : String)
    (hs : s = "hot" ∨ s = "warm" ∨ s = "cold") :
    jsIncludes (schedulingMessage s) s = true := by
  rcases hs with h | h | h <;> subst h <;> decide

/-- Helper: the mutation of the last interview turn when the lead declines
the motivation question. -/
theorem interviewLead_last_not_sure (lead : Lead) :
    interviewLead lead 6 "not sure" =
      { lead with
          motivation := some "unknown"
          current_question_index := 7
          qualification_complete := true
          lead_score := some (calculateLeadScore
            { lead with motivation := some "unknown", current_question_index := 7 }) } := by
  have hup : updateLeadField lead 6 "not sure" = { lead with motivation := some "unknown" } := by
    unfold updateLeadField
    rw [if_neg (by decide), if_pos (by decide)]
    simp [QUALIFICATION_QUESTIONS, setLeadField]
  unfold interviewLead
  rw [if_pos (by decide), hup]

/-- C4: a lead at the last question with no meeting booked, answering with a
declining message, gets the sentinel in motivation, a finished and scored
interview, a pending meeting offer, and a reply containing the tier word. -/
theorem getNextStep_last_turn (lead : Lead)
    (h6 : lead.current_question_index = 6) (hms : lead.meeting_scheduled = false) :
    (getNextStep lead "not sure").newLead.motivation = some "unknown"
    ∧ (getNextStep lead "not sure").newLead.current_question_index = 7
    ∧ (getNextStep lead "not sure").newLead.qualification_complete = true
    ∧ (getNextStep lead "not sure").newLead.lead_score
        = some (calculateLeadScore ((getNextStep lead "not sure").newLead))
    ∧ (getNextStep lead "not sure").newLead.asked_for_meeting = true
    ∧ (getNextStep lead "not sure").type = "scheduling"
    ∧ jsIncludes ((getNextStep lead "not sure").message)
        (calculateLeadScore ((getNextStep lead "not sure").newLead)) = true := by
  have hstep : getNextStep lead "not sure" =
      { type := "scheduling"
        message := schedulingMessage (calculateLeadScore
          { lead with motivation := some "unknown", current_question_index := 7 })
        newLead := { lead with
            motivation := some "unknown"
            current_question_index := 7
            qualification_complete := true
            lead_score := some (calculateLeadScore
              { lead with motivation := some "unknown", current_question_index := 7 })
            asked_for_meeting := true } } := by
    unfold getNextStep
    rw [h6]
    rw [if_neg (by simp [hms]), if_pos (by decide), if_neg (by decide),
      interviewLead_last_not_sure]
    rfl
  rw [hstep]
  refine ⟨rfl, rfl, rfl, rfl, rfl, rfl, ?_⟩
  exact schedulingMessage_contains _ (calculateLeadScore_cases _)

/-- Witness for C4 at the scenario B lead. -/
theorem getNextStep_last_turn_witness :
    (getNextStep scenarioBLead "not sure").newLead.motivation = some "unknown"
    ∧ (getNextStep scenarioBLead "not sure").newLead.asked_for_meeting = true :=
  ⟨(getNextStep_last_turn scenarioBLead rfl rfl).1,
   (getNextStep_last_turn scenarioBLead rfl rfl).2.2.2.2.1⟩

/-! ### Negation-blindness of the scheduling-intent classifier -/

/-- C10: any non-empty message containing an affirmative-lexicon word as a
substring is classified affirmative regardless of surrounding negation; in
particular a declining message at the scheduling stage books the meeting
with the raw text as notes, while the same text answered to a qualification
question is stored as the sentinel. -/
theorem isPositiveResponse_negation_blind :
    (∀ msg : String, msg ≠ "" →
      positiveWords.any (fun word => jsIncludes (jsTrim (jsToLower msg)) word) = true →
      isPositiveResponse (some msg) = true)
    ∧ isPositiveResponse (some "not sure") = true
    ∧ (∀ lead : Lead, lead.asked_for_meeting = true → lead.meeting_scheduled = false →
        QUALIFICATION_QUESTIONS.length ≤ lead.current_question_index →
        (getNextStep lead "not sure").newLead.meeting_scheduled = true
        ∧ (getNextStep lead "not sure").newLead.wants_meeting = some true
        ∧ (getNextStep lead "not sure").newLead.meeting_notes = some "not sure")
    ∧ (∀ lead : Lead, ∀ i : Nat, i < QUALIFICATION_QUESTIONS.length →
        leadField (updateLeadField lead i "not sure")
          (QUALIFICATION_QUESTIONS.getD i ("", "")).1 = some "unknown") := by
  refine ⟨?_, by decide, ?_, ?_⟩
  · intro msg hne hany
    unfold isPositiveResponse
    simp only [if_neg hne]
    exact hany
  · intro lead ham hms hidx
    rw [getNextStep_sched_pos lead "not sure" ham hms hidx (by decide)]
    exact ⟨rfl, rfl, rfl⟩
  · intro lead i hi
    exact updateLeadField_unknown_case lead i "not sure" hi (by decide)

/-- Witness for C10 at a concrete pending-offer lead. -/
theorem isPositiveResponse_negation_blind_witness :
    (getNextStep schedulingLead "not sure").newLead.wants_meeting = some true
    ∧ (getNextStep schedulingLead "not sure").newLead.meeting_notes = some "not sure" :=
  ⟨(isPositiveResponse_negation_blind.2.2.1 schedulingLead rfl rfl (by decide)).2.1,
   (isPositiveResponse_negation_blind.2.2.1 schedulingLead rfl rfl (by decide)).2.2⟩

end RealEstate
